import Mathlib

/-!
Verification development for a small LangGraph ReAct agent
(`agent.py`, `calculator.py`, plus weather/search tools treated as
external collaborators).

The development shallowly embeds:
  * the Python string operations and the concrete regular expressions used
    by `format_response` (the response sanitizer),
  * a JSON parser modelling `json.loads` on the fragment of JSON the
    sanitizer can meet,
  * the calculator tool (`ast.parse` on arithmetic expressions plus
    `_safe_eval`),
  * the agent loop (`agent_node`, `should_continue`, the tool node and the
    graph wiring of `build_agent` / `run_agent`), with the language model
    and the two network tools (weather, search) abstracted as oracles.

Machine floats are modelled as exact rationals; every place where the
model abstracts an IEEE value or a CPython error message is marked with a
comment.  All definitions are executable.
-/

namespace InfoAgent

/-! ## Characters and Python string primitives -/

/-- Backtick (U+0060), written via its code point. -/
def chBacktick : Char := Char.ofNat 96

/-- Line feed. -/
def chLF : Char := Char.ofNat 10

/-- Carriage return. -/
def chCR : Char := Char.ofNat 13

/-- Horizontal tab. -/
def chTab : Char := Char.ofNat 9

/-- Vertical tab. -/
def chVT : Char := Char.ofNat 11

/-- Form feed. -/
def chFF : Char := Char.ofNat 12

/-- Double quote. -/
def chQuote : Char := Char.ofNat 34

/-- Single quote. -/
def chApos : Char := Char.ofNat 39

/-- Backslash. -/
def chBackslash : Char := Char.ofNat 92

/-- The whitespace class used both by Python's `str.strip()` and by the
regex class `\s` (ASCII part; the non-ASCII Unicode whitespace code points
never occur in any input considered here). -/
def isPyWs (c : Char) : Bool :=
  c = ' ' || c = chTab || c = chLF || c = chCR || c = chVT || c = chFF

/-- The regex class `\w` (ASCII part: letters, digits, underscore). -/
def isWordChar (c : Char) : Bool := c.isAlphanum || c = '_'

/-- `str.strip()` on a character list. -/
def pyStripChars (cs : List Char) : List Char :=
  ((cs.dropWhile isPyWs).reverse.dropWhile isPyWs).reverse

/-- Python `str.strip()`. -/
def pyStrip (s : String) : String := String.mk (pyStripChars s.data)

/-! ## The regex substitutions of `format_response`

`re.sub` with a constant replacement is modelled as a left-to-right scan
that removes each leftmost non-overlapping match and resumes after it. -/

/-- One application step of `re.sub(r"```[\w]*\n?", "", ·)`: at a position
where three backticks occur, the match greedily takes the run of word
characters and one optional newline. -/
def subFenceOpenF : ℕ → List Char → List Char
  | 0, l => l
  | _ + 1, [] => []
  | fuel + 1, c :: cs =>
    if c = chBacktick ∧ cs.take 2 = [chBacktick, chBacktick] then
      let rest := cs.drop 2
      let r1 := rest.dropWhile isWordChar
      let r2 := r1.drop (if r1.head? = some chLF then 1 else 0)
      subFenceOpenF fuel r2
    else
      c :: subFenceOpenF fuel cs

/-- The full substitution; every step consumes at least one character, so
the fuel `l.length + 1` never runs out. -/
def subFenceOpen (l : List Char) : List Char := subFenceOpenF (l.length + 1) l

/-- `re.sub(r"```", "", ·)`: remove every occurrence of three backticks. -/
def subFenceCloseF : ℕ → List Char → List Char
  | 0, l => l
  | _ + 1, [] => []
  | fuel + 1, c :: cs =>
    if c = chBacktick ∧ cs.take 2 = [chBacktick, chBacktick] then
      subFenceCloseF fuel (cs.drop 2)
    else
      c :: subFenceCloseF fuel cs

/-- The full substitution (fuel as above). -/
def subFenceClose (l : List Char) : List Char := subFenceCloseF (l.length + 1) l

/-- `re.sub(r"`([^`]*)`", r"\1", ·)`: unwrap each inline code span (a
backtick, non-backtick characters, a closing backtick) to its content.
When a backtick has no later closing backtick, the regex has no further
match and the rest of the text is kept as is. -/
def subInlineCodeF : ℕ → List Char → List Char
  | 0, l => l
  | _ + 1, [] => []
  | fuel + 1, c :: cs =>
    if c = chBacktick then
      let inner := cs.takeWhile (fun d => ¬ d = chBacktick)
      let rest := cs.dropWhile (fun d => ¬ d = chBacktick)
      match rest with
      | _ :: r2 => inner ++ subInlineCodeF fuel r2
      | [] => c :: cs
    else
      c :: subInlineCodeF fuel cs

/-- The full substitution (fuel as above). -/
def subInlineCode (l : List Char) : List Char := subInlineCodeF (l.length + 1) l

/-- `re.sub(r"<[^>]+>", "", ·)`: remove each angle-bracket tag containing
at least one non-`>` character.  `<>` (empty tag) is not a match and the
`<` is kept. -/
def subTagsF : ℕ → List Char → List Char
  | 0, l => l
  | _ + 1, [] => []
  | fuel + 1, c :: cs =>
    if c = '<' then
      let inner := cs.takeWhile (fun d => ¬ d = '>')
      let rest := cs.dropWhile (fun d => ¬ d = '>')
      match rest with
      | _ :: r2 =>
        if inner = [] then c :: subTagsF fuel cs
        else subTagsF fuel r2
      | [] => c :: cs
    else
      c :: subTagsF fuel cs

/-- The full substitution (fuel as above). -/
def subTags (l : List Char) : List Char := subTagsF (l.length + 1) l

/-! ## The final-answer marker search

`re.search(r"(?i)\*{0,2}final\s+answer\*{0,2}\s*:?\s*", text)`:
case-insensitive, leftmost match; on success the code keeps
`text[match.end():]`. -/

/-- Case-insensitive (ASCII) literal match: `pat` is given in lower case;
returns the remainder on success. -/
def ciHead (pat : List Char) (cs : List Char) : Option (List Char) :=
  match pat, cs with
  | [], rest => some rest
  | _ :: _, [] => none
  | p :: ps, c :: cs' => if c.toLower = p then ciHead ps cs' else none

/-- Try to match `\*{0,2}final\s+answer\*{0,2}\s*:?\s*` at the head of the
text; returns the remainder after the match end.  A run of three or more
leading stars cannot back off to fewer stars because the next pattern
character must then be `f`. -/
def faMatchHere (cs : List Char) : Option (List Char) :=
  let stars := cs.takeWhile (fun d => d = '*')
  if 3 ≤ stars.length then none
  else
    match ciHead "final".data (cs.dropWhile (fun d => d = '*')) with
    | none => none
    | some r1 =>
      if (r1.takeWhile isPyWs).length = 0 then none
      else
        match ciHead "answer".data (r1.dropWhile isPyWs) with
        | none => none
        | some r3 =>
          let starRun := (r3.takeWhile (fun d => d = '*')).length
          let r4 := r3.drop (min 2 starRun)
          let r5 := r4.dropWhile isPyWs
          let r6 := if r5.head? = some ':' then r5.tail else r5
          some (r6.dropWhile isPyWs)

/-- Leftmost search for the final-answer marker (`re.search`); returns the
text after the end of the first match. -/
def findFA (cs : List Char) : Option (List Char) :=
  match faMatchHere cs with
  | some r => some r
  | none =>
    match cs with
    | [] => none
    | _ :: rest => findFA rest

/-- `text[fa_match.end():].strip().lstrip("*").strip()`. -/
def faPost (r : List Char) : List Char :=
  pyStripChars ((pyStripChars r).dropWhile (fun d => d = '*'))

/-! ## The leading thoughts/reasoning block

`re.compile(r"(?i)^(thoughts?|reasoning|thinking|chain.of.thought)\s*:.*?(\n\n|\Z)",
re.DOTALL).sub("", text)`: without `re.MULTILINE` the anchor `^` only
matches at position 0, so at most one (leading) block is removed; the lazy
body runs up to and including the first blank line, or to the end. -/

/-- `\s*:`: optional whitespace then a mandatory colon; remainder on
success. -/
def wsColon (cs : List Char) : Option (List Char) :=
  let r := cs.dropWhile isPyWs
  match r with
  | c :: r' => if c = ':' then some r' else none
  | [] => none

/-- `.` under DOTALL: exactly one arbitrary character. -/
def dotAny (cs : List Char) : Option (List Char) :=
  match cs with
  | [] => none
  | _ :: r => some r

/-- Match the head alternation followed by `\s*:`, trying the regex
alternatives (and the optional `s` of `thoughts?`, greedy first) in
order. -/
def thoughtColonTail (cs : List Char) : Option (List Char) :=
  ((ciHead "thoughts".data cs).bind wsColon) <|>
  ((ciHead "thought".data cs).bind wsColon) <|>
  ((ciHead "reasoning".data cs).bind wsColon) <|>
  ((ciHead "thinking".data cs).bind wsColon) <|>
  (((((ciHead "chain".data cs).bind dotAny).bind
      (ciHead "of".data)).bind dotAny).bind
      (fun r => (ciHead "thought".data r).bind wsColon))

/-- Find the first occurrence of two consecutive newlines; return the
suffix strictly after them. -/
def findDoubleLF (cs : List Char) : Option (List Char) :=
  match cs with
  | [] => none
  | c :: rest =>
    if c = chLF ∧ rest.head? = some chLF then some rest.tail
    else findDoubleLF rest

/-- The whole substitution: if the anchored pattern matches, drop the text
through the first blank line after the colon (or drop everything when
there is none); otherwise the text is unchanged. -/
def stripThoughtBlock (cs : List Char) : List Char :=
  match thoughtColonTail cs with
  | some afterColon =>
    match findDoubleLF afterColon with
    | some suffix => suffix
    | none => []
  | none => cs

/-! ## `str.splitlines` and the residual header-line filter -/

/-- Python line-break characters (`str.splitlines`). -/
def isLineBreak (c : Char) : Bool :=
  c = chLF || c = chCR || c = chVT || c = chFF ||
  c = Char.ofNat 28 || c = Char.ofNat 29 || c = Char.ofNat 30 ||
  c = Char.ofNat 133 || c = Char.ofNat 8232 || c = Char.ofNat 8233

/-- `str.splitlines()` on characters: terminators end lines (`\r\n`
counting as one), a trailing unterminated segment forms a final line, the
empty string yields no lines. -/
def splitlinesCharsF : ℕ → List Char → List (List Char)
  | 0, _ => []
  | fuel + 1, cs =>
    if cs = [] then []
    else
      match cs.dropWhile (fun c => ¬ isLineBreak c) with
      | [] => [cs.takeWhile (fun c => ¬ isLineBreak c)]
      | c :: r =>
        if c = chCR ∧ r.head? = some chLF then
          cs.takeWhile (fun c => ¬ isLineBreak c) :: splitlinesCharsF fuel r.tail
        else
          cs.takeWhile (fun c => ¬ isLineBreak c) :: splitlinesCharsF fuel r

/-- The full split (fuel as above: every line consumes at least one
character). -/
def splitlinesChars (cs : List Char) : List (List Char) :=
  splitlinesCharsF (cs.length + 1) cs

/-- Python `str.splitlines()`. -/
def pySplitlines (s : String) : List String :=
  (splitlinesChars s.data).map String.mk

/-- `re.match(r"(?i)^\s*(thoughts?|reasoning)\s*:", line)` as a Boolean. -/
def lineIsThought (line : String) : Bool :=
  let r := line.data.dropWhile isPyWs
  (((ciHead "thoughts".data r).bind wsColon) <|>
   ((ciHead "thought".data r).bind wsColon) <|>
   ((ciHead "reasoning".data r).bind wsColon)).isSome

/-! ## JSON values and a model of `json.loads`

Only the JSON fragment `json.loads` accepts is modelled (strict mode;
the non-standard `NaN`/`Infinity` extensions are not modelled — every
claim below only meets ordinary objects and strings).  Numbers are
modelled as exact rationals. -/

/-- JSON values.  Object members are kept in source order; duplicate keys
are resolved last-wins at lookup time, as Python's `dict` construction
does. -/
inductive JVal where
  | null : JVal
  | bool (b : Bool) : JVal
  | num (q : ℚ) : JVal
  | str (s : String) : JVal
  | arr (l : List JVal) : JVal
  | obj (l : List (String × JVal)) : JVal

/-- JSON whitespace (`json.loads` skips exactly these four). -/
def isJsonWs (c : Char) : Bool :=
  c = ' ' || c = chTab || c = chLF || c = chCR

/-- `dict` membership for a parsed object. -/
def jMember (kvs : List (String × JVal)) (k : String) : Bool :=
  kvs.any (fun p => p.1 = k)

/-- `dict` lookup for a parsed object: the last binding wins, as in
Python's construction of a `dict` from pairs. -/
def jLookup (kvs : List (String × JVal)) (k : String) : Option JVal :=
  (kvs.reverse.find? (fun p => p.1 = k)).map (fun p => p.2)

/-- Hexadecimal digit test. -/
def isHexDig (c : Char) : Bool :=
  c.isDigit || ('a' ≤ c ∧ c ≤ 'f') || ('A' ≤ c ∧ c ≤ 'F')

/-- Value of a hexadecimal digit. -/
def hexVal (c : Char) : ℕ :=
  if c.isDigit then c.toNat - 48
  else if 'a' ≤ c then c.toNat - 87
  else c.toNat - 55

/-- Decode the body of a JSON string literal (after the opening quote):
returns the decoded characters and the remainder after the closing quote.
Strict mode: raw control characters below U+0020 are rejected. -/
def parseJStringBody (cs : List Char) : Option (List Char × List Char) :=
  match cs with
  | [] => none
  | c :: rest =>
    if c = chQuote then some ([], rest)
    else if c = chBackslash then
      match rest with
      | [] => none
      | e :: rest2 =>
        if e = chQuote ∨ e = chBackslash ∨ e = '/' then
          (parseJStringBody rest2).map (fun p => (e :: p.1, p.2))
        else if e = 'b' then
          (parseJStringBody rest2).map (fun p => (Char.ofNat 8 :: p.1, p.2))
        else if e = 'f' then
          (parseJStringBody rest2).map (fun p => (chFF :: p.1, p.2))
        else if e = 'n' then
          (parseJStringBody rest2).map (fun p => (chLF :: p.1, p.2))
        else if e = 'r' then
          (parseJStringBody rest2).map (fun p => (chCR :: p.1, p.2))
        else if e = 't' then
          (parseJStringBody rest2).map (fun p => (chTab :: p.1, p.2))
        else if e = 'u' then
          match rest2 with
          | h1 :: h2 :: h3 :: h4 :: rest3 =>
            if isHexDig h1 ∧ isHexDig h2 ∧ isHexDig h3 ∧ isHexDig h4 then
              let v := 4096 * hexVal h1 + 256 * hexVal h2 + 16 * hexVal h3 + hexVal h4
              (parseJStringBody rest3).map (fun p => (Char.ofNat v :: p.1, p.2))
            else none
          | _ => none
        else none
    else if c.toNat < 32 then none
    else (parseJStringBody rest).map (fun p => (c :: p.1, p.2))

/-- Digits of a JSON number. -/
def digitsVal (ds : List Char) : ℕ :=
  ds.foldl (fun acc d => 10 * acc + (d.toNat - 48)) 0

/-- Parse a JSON number starting at `cs` (grammar
`-?(0|[1-9]\d*)(\.\d+)?([eE][+-]?\d+)?`), as an exact rational. -/
def parseJNumber (cs : List Char) : Option (ℚ × List Char) :=
  let (neg, cs1) :=
    match cs with
    | c :: r => if c = '-' then (true, r) else (false, cs)
    | [] => (false, cs)
  let intDigits := cs1.takeWhile Char.isDigit
  let cs2 := cs1.dropWhile Char.isDigit
  if intDigits = [] then none
  else if 2 ≤ intDigits.length ∧ intDigits.head? = some '0' then none
  else
    let ipart : ℚ := (digitsVal intDigits : ℤ)
    let (frac, cs3) :=
      match cs2 with
      | c :: r =>
        if c = '.' then
          let fd := r.takeWhile Char.isDigit
          (some fd, r.dropWhile Char.isDigit)
        else (none, cs2)
      | [] => (none, cs2)
    match frac with
    | some [] => none
    | _ =>
      let fval : ℚ :=
        match frac with
        | some fd => (digitsVal fd : ℤ) / ((10 : ℚ) ^ fd.length)
        | none => 0
      let base : ℚ := ipart + fval
      let (expo, cs4) :=
        match cs3 with
        | c :: r =>
          if c = 'e' ∨ c = 'E' then
            let (eneg, r1) :=
              match r with
              | d :: r' =>
                if d = '-' then (true, r')
                else if d = '+' then (false, r') else (false, r)
              | [] => (false, r)
            let eds := r1.takeWhile Char.isDigit
            if eds = [] then (none, cs3)
            else (some (eneg, digitsVal eds), r1.dropWhile Char.isDigit)
          else (none, cs3)
        | [] => (none, cs3)
      match expo with
      | some (eneg, e) =>
        let scaled := if eneg then base / (10 : ℚ) ^ e else base * (10 : ℚ) ^ e
        some (if neg then -scaled else scaled, cs4)
      | none => some ((if neg then -base else base), cs4)

mutual

/-- Parse one JSON value (leading whitespace allowed); `fuel` bounds the
recursion depth and strictly exceeds the input length at top level, so it
never runs out on the way to a successful parse. -/
def parseJVal (fuel : ℕ) (cs : List Char) : Option (JVal × List Char) :=
  match fuel with
  | 0 => none
  | fuel + 1 =>
    let cs1 := cs.dropWhile isJsonWs
    match cs1 with
    | [] => none
    | c :: rest =>
      if c = chQuote then
        (parseJStringBody rest).map (fun p => (JVal.str (String.mk p.1), p.2))
      else if c = '{' then
        let r1 := rest.dropWhile isJsonWs
        match r1 with
        | c2 :: r2 =>
          if c2 = '}' then some (JVal.obj [], r2)
          else parseJMembers fuel cs1.tail []
        | [] => none
      else if c = '[' then
        let r1 := rest.dropWhile isJsonWs
        match r1 with
        | c2 :: r2 =>
          if c2 = ']' then some (JVal.arr [], r2)
          else parseJItems fuel cs1.tail []
        | [] => none
      else if c = 't' then
        if rest.take 3 = ['r', 'u', 'e'] then some (JVal.bool true, rest.drop 3)
        else none
      else if c = 'f' then
        if rest.take 4 = ['a', 'l', 's', 'e'] then some (JVal.bool false, rest.drop 4)
        else none
      else if c = 'n' then
        if rest.take 3 = ['u', 'l', 'l'] then some (JVal.null, rest.drop 3)
        else none
      else if c = '-' ∨ c.isDigit then
        (parseJNumber cs1).map (fun p => (JVal.num p.1, p.2))
      else none

/-- Parse the members of an object after the opening brace (at least one
member present), accumulating in source order. -/
def parseJMembers (fuel : ℕ) (cs : List Char) (acc : List (String × JVal)) :
    Option (JVal × List Char) :=
  match fuel with
  | 0 => none
  | fuel + 1 =>
    let cs1 := cs.dropWhile isJsonWs
    match cs1 with
    | c :: rest =>
      if c = chQuote then
        match parseJStringBody rest with
        | none => none
        | some (key, r1) =>
          let r2 := r1.dropWhile isJsonWs
          match r2 with
          | d :: r3 =>
            if d = ':' then
              match parseJVal fuel r3 with
              | none => none
              | some (v, r4) =>
                let r5 := r4.dropWhile isJsonWs
                match r5 with
                | e :: r6 =>
                  if e = ',' then
                    parseJMembers fuel r6 (acc ++ [(String.mk key, v)])
                  else if e = '}' then
                    some (JVal.obj (acc ++ [(String.mk key, v)]), r6)
                  else none
                | [] => none
            else none
          | [] => none
      else none
    | [] => none

/-- Parse the items of an array after the opening bracket (at least one
item present). -/
def parseJItems (fuel : ℕ) (cs : List Char) (acc : List JVal) :
    Option (JVal × List Char) :=
  match fuel with
  | 0 => none
  | fuel + 1 =>
    match parseJVal fuel cs with
    | none => none
    | some (v, r1) =>
      let r2 := r1.dropWhile isJsonWs
      match r2 with
      | e :: r3 =>
        if e = ',' then parseJItems fuel r3 (acc ++ [v])
        else if e = ']' then some (JVal.arr (acc ++ [v]), r3)
        else none
      | [] => none

end

/-- `json.loads`: parse one JSON document with nothing but whitespace
after it.  The fuel `cs.length + 1` dominates the recursion depth, since
every nested `parseJVal` call strictly consumes input. -/
def parseJson (s : String) : Option JVal :=
  match parseJVal (s.data.length + 1) s.data with
  | some (v, rest) => if rest.dropWhile isJsonWs = [] then some v else none
  | none => none

/-! ## The calculator tool (`calculator.py`)

`calculator` parses its argument with `ast.parse(expression, mode="eval")`
and evaluates the tree with `_safe_eval`.  The embedding models the
expression grammar the evaluator can handle (constants, names, calls of
named functions, binary and unary operators, parentheses); any other
input is a parse error, which — like a Python `SyntaxError` or an
unsupported-node `ValueError` — surfaces as an `Error evaluating '...'`
text.  Machine floats are exact rationals; transcendental function values
that are not rational are abstracted (comments mark each spot); error
message texts other than the division-by-zero one are abbreviated, and
the claims below only rely on their `Error` prefix. -/

/-- Python run-time values the evaluator can produce. -/
inductive PyVal where
  | int (n : ℤ) : PyVal
  | float (q : ℚ) : PyVal
  | str (s : String) : PyVal
  | bool (b : Bool) : PyVal
  | pynone : PyVal
deriving DecidableEq

/-- Binary operators whitelisted in `SAFE_OPERATORS`. -/
inductive BOp where
  | add | sub | mul | div | pow | mod | floordiv
deriving DecidableEq

/-- Unary operators appearing in parsed expressions.  `USub` is in
`SAFE_OPERATORS`; `UAdd` is not and is rejected by `_safe_eval`. -/
inductive UOp where
  | usub | uadd
deriving DecidableEq

/-- The expression AST (the fragment of Python's `ast` that the grammar
below can produce). -/
inductive PyExpr where
  | const (v : PyVal) : PyExpr
  | name (id : String) : PyExpr
  | call (f : String) (args : List PyExpr) : PyExpr
  | binop (op : BOp) (l r : PyExpr) : PyExpr
  | unary (op : UOp) (e : PyExpr) : PyExpr

/-- The keys of `SAFE_FUNCTIONS`. -/
def safeNames : List String :=
  ["sqrt", "abs", "ceil", "floor", "log", "log2", "log10",
   "sin", "cos", "tan", "pi", "e", "round", "pow"]

/-- The non-callable entries of `SAFE_FUNCTIONS` (named constants). -/
def constNames : List String := ["pi", "e"]

/-- `math.pi` as the exact rational value of its IEEE double. -/
def piVal : ℚ := (884279719003555 : ℚ) / (281474976710656 : ℚ)

/-- `math.e` as the exact rational value of its IEEE double. -/
def eVal : ℚ := (6121026514868073 : ℚ) / (2251799813685248 : ℚ)

/-- Look up a named constant. -/
def constVal (id : String) : ℚ := if id = "pi" then piVal else eVal

/-! ### Tokenizer (model of the CPython lexer on arithmetic input) -/

/-- Tokens. -/
inductive PyTok where
  | lit (v : PyVal) : PyTok
  | ident (s : String) : PyTok
  | op (s : String) : PyTok
  | lparen | rparen | comma : PyTok
deriving DecidableEq

/-- Identifier start character (ASCII). -/
def isIdentStart (c : Char) : Bool := c.isAlpha || c = '_'

/-- Lex one numeric literal.  Integer literals yield `int`, literals with
a decimal point or exponent yield `float` (exact rational value).  An
exponent marker without digits is a syntax error.  (Underscore separators
and non-decimal bases are not modelled.) -/
def lexNumber (cs : List Char) : Option (PyVal × List Char) :=
  let ip := cs.takeWhile Char.isDigit
  let r1 := cs.dropWhile Char.isDigit
  let hasDot := r1.head? = some '.'
  let fd := if hasDot then r1.tail.takeWhile Char.isDigit else []
  let r2 := if hasDot then r1.tail.dropWhile Char.isDigit else r1
  if ip = [] ∧ fd = [] then none
  else
    match r2 with
    | c :: r =>
      if c = 'e' ∨ c = 'E' then
        let (eneg, r3) :=
          match r with
          | d :: r' =>
            if d = '-' then (true, r')
            else if d = '+' then (false, r') else (false, r)
          | [] => (false, r)
        let ed := r3.takeWhile Char.isDigit
        if ed = [] then none
        else
          let base : ℚ := (digitsVal ip : ℤ) + (digitsVal fd : ℤ) / (10 : ℚ) ^ fd.length
          let ex : ℚ :=
            if eneg then base / (10 : ℚ) ^ digitsVal ed
            else base * (10 : ℚ) ^ digitsVal ed
          some (PyVal.float ex, r3.dropWhile Char.isDigit)
      else
        if hasDot then
          some (PyVal.float ((digitsVal ip : ℤ) + (digitsVal fd : ℤ) / (10 : ℚ) ^ fd.length), r2)
        else some (PyVal.int (digitsVal ip : ℤ), r2)
    | [] =>
      if hasDot then
        some (PyVal.float ((digitsVal ip : ℤ) + (digitsVal fd : ℤ) / (10 : ℚ) ^ fd.length), r2)
      else some (PyVal.int (digitsVal ip : ℤ), r2)

/-- Tokenize an expression.  String literals are taken verbatim up to the
matching quote (escape sequences are not modelled; the claims only meet
plain literals).  `True`/`False`/`None` lex as constants, as in Python's
AST.  Any unexpected character is a syntax error. -/
def tokenize (fuel : ℕ) (cs : List Char) : Option (List PyTok) :=
  match fuel with
  | 0 => none
  | fuel + 1 =>
    match cs with
    | [] => some []
    | c :: rest =>
      if c = ' ' ∨ c = chTab ∨ c = chLF ∨ c = chCR then tokenize fuel rest
      else if c.isDigit ∨ (c = '.' ∧ ((rest.head?.map Char.isDigit).getD false)) then
        match lexNumber cs with
        | some (v, r) => (tokenize fuel r).map (fun ts => PyTok.lit v :: ts)
        | none => none
      else if isIdentStart c then
        let idc := cs.takeWhile isWordChar
        let r := cs.dropWhile isWordChar
        let id := String.mk idc
        let tk :=
          if id = "True" then PyTok.lit (PyVal.bool true)
          else if id = "False" then PyTok.lit (PyVal.bool false)
          else if id = "None" then PyTok.lit PyVal.pynone
          else PyTok.ident id
        (tokenize fuel r).map (fun ts => tk :: ts)
      else if c = chApos ∨ c = chQuote then
        let inner := rest.takeWhile (fun d => ¬ d = c)
        let after := rest.dropWhile (fun d => ¬ d = c)
        match after with
        | _ :: r => (tokenize fuel r).map (fun ts => PyTok.lit (PyVal.str (String.mk inner)) :: ts)
        | [] => none
      else if c = '*' then
        if rest.head? = some '*' then (tokenize fuel rest.tail).map (fun ts => PyTok.op "**" :: ts)
        else (tokenize fuel rest).map (fun ts => PyTok.op "*" :: ts)
      else if c = '/' then
        if rest.head? = some '/' then (tokenize fuel rest.tail).map (fun ts => PyTok.op "//" :: ts)
        else (tokenize fuel rest).map (fun ts => PyTok.op "/" :: ts)
      else if c = '+' then (tokenize fuel rest).map (fun ts => PyTok.op "+" :: ts)
      else if c = '-' then (tokenize fuel rest).map (fun ts => PyTok.op "-" :: ts)
      else if c = '%' then (tokenize fuel rest).map (fun ts => PyTok.op "%" :: ts)
      else if c = '(' then (tokenize fuel rest).map (fun ts => PyTok.lparen :: ts)
      else if c = ')' then (tokenize fuel rest).map (fun ts => PyTok.rparen :: ts)
      else if c = ',' then (tokenize fuel rest).map (fun ts => PyTok.comma :: ts)
      else none

/-! ### Parser (Python expression grammar, arithmetic fragment)

Precedence, matching Python: `+ -` < `* / // %` < unary `- +` < `**`
(right-associative, its right operand may again be unary). -/

mutual

/-- Additive level. -/
def parseAdd (fuel : ℕ) (ts : List PyTok) : Option (PyExpr × List PyTok) :=
  match fuel with
  | 0 => none
  | fuel + 1 =>
    match parseMul fuel ts with
    | none => none
    | some (e, rest) => parseAddLoop fuel e rest

/-- Left-associative chain of `+`/`-`. -/
def parseAddLoop (fuel : ℕ) (acc : PyExpr) (ts : List PyTok) :
    Option (PyExpr × List PyTok) :=
  match fuel with
  | 0 => none
  | fuel + 1 =>
    match ts with
    | PyTok.op o :: rest =>
      if o = "+" then
        match parseMul fuel rest with
        | none => none
        | some (e, r) => parseAddLoop fuel (PyExpr.binop BOp.add acc e) r
      else if o = "-" then
        match parseMul fuel rest with
        | none => none
        | some (e, r) => parseAddLoop fuel (PyExpr.binop BOp.sub acc e) r
      else some (acc, ts)
    | _ => some (acc, ts)

/-- Multiplicative level. -/
def parseMul (fuel : ℕ) (ts : List PyTok) : Option (PyExpr × List PyTok) :=
  match fuel with
  | 0 => none
  | fuel + 1 =>
    match parseUnaryE fuel ts with
    | none => none
    | some (e, rest) => parseMulLoop fuel e rest

/-- Left-associative chain of `*`, `/`, `//`, `%`. -/
def parseMulLoop (fuel : ℕ) (acc : PyExpr) (ts : List PyTok) :
    Option (PyExpr × List PyTok) :=
  match fuel with
  | 0 => none
  | fuel + 1 =>
    match ts with
    | PyTok.op o :: rest =>
      if o = "*" ∨ o = "/" ∨ o = "//" ∨ o = "%" then
        let bop := if o = "*" then BOp.mul else if o = "/" then BOp.div
          else if o = "//" then BOp.floordiv else BOp.mod
        match parseUnaryE fuel rest with
        | none => none
        | some (e, r) => parseMulLoop fuel (PyExpr.binop bop acc e) r
      else some (acc, ts)
    | _ => some (acc, ts)

/-- Unary level (`-x`, `+x`). -/
def parseUnaryE (fuel : ℕ) (ts : List PyTok) : Option (PyExpr × List PyTok) :=
  match fuel with
  | 0 => none
  | fuel + 1 =>
    match ts with
    | PyTok.op o :: rest =>
      if o = "-" then
        (parseUnaryE fuel rest).map (fun p => (PyExpr.unary UOp.usub p.1, p.2))
      else if o = "+" then
        (parseUnaryE fuel rest).map (fun p => (PyExpr.unary UOp.uadd p.1, p.2))
      else none
    | _ => parsePower fuel ts

/-- Power level: `atom ** u_expr`, right-associative. -/
def parsePower (fuel : ℕ) (ts : List PyTok) : Option (PyExpr × List PyTok) :=
  match fuel with
  | 0 => none
  | fuel + 1 =>
    match parseAtom fuel ts with
    | none => none
    | some (b, rest) =>
      match rest with
      | PyTok.op o :: r2 =>
        if o = "**" then
          (parseUnaryE fuel r2).map (fun p => (PyExpr.binop BOp.pow b p.1, p.2))
        else some (b, rest)
      | _ => some (b, rest)

/-- Atoms: literals, names, calls of a named function, parenthesised
expressions. -/
def parseAtom (fuel : ℕ) (ts : List PyTok) : Option (PyExpr × List PyTok) :=
  match fuel with
  | 0 => none
  | fuel + 1 =>
    match ts with
    | PyTok.lit v :: rest => some (PyExpr.const v, rest)
    | PyTok.ident f :: PyTok.lparen :: rest =>
      (match rest with
       | PyTok.rparen :: r2 => some (PyExpr.call f [], r2)
       | _ => parseArgs fuel f [] rest)
    | PyTok.ident id :: rest => some (PyExpr.name id, rest)
    | PyTok.lparen :: rest =>
      (match parseAdd fuel rest with
       | some (e, PyTok.rparen :: r2) => some (e, r2)
       | _ => none)
    | _ => none

/-- Comma-separated call arguments up to the closing parenthesis. -/
def parseArgs (fuel : ℕ) (f : String) (acc : List PyExpr) (ts : List PyTok) :
    Option (PyExpr × List PyTok) :=
  match fuel with
  | 0 => none
  | fuel + 1 =>
    match parseAdd fuel ts with
    | none => none
    | some (e, rest) =>
      match rest with
      | PyTok.comma :: r2 => parseArgs fuel f (acc ++ [e]) r2
      | PyTok.rparen :: r2 => some (PyExpr.call f (acc ++ [e]), r2)
      | _ => none

end

/-- `ast.parse(expression, mode="eval")`: tokenise and parse the whole
input.  The model's syntax-error message is the fixed text
`invalid syntax` (CPython appends location information; the claims only
use the `Error evaluating '<expr>':` prefix built from it). -/
def parsePyExpr (s : String) : Except String PyExpr :=
  match tokenize (s.data.length + 1) s.data with
  | none => Except.error "invalid syntax"
  | some ts =>
    match parseAdd (8 * ts.length + 8) ts with
    | some (e, []) => Except.ok e
    | _ => Except.error "invalid syntax"

/-! ### Evaluator (`_safe_eval`) -/

/-- Evaluation failures.  `zeroDiv` is Python's `ZeroDivisionError`, which
`calculator` reports with its own fixed text; everything else is caught by
the generic handler and rendered after `Error evaluating '<expr>': `. -/
inductive EvalErr where
  | zeroDiv : EvalErr
  | other (msg : String) : EvalErr
deriving DecidableEq

/-- View a value as a Python `int` (`bool` is an `int` subclass). -/
def toIntOpt : PyVal → Option ℤ
  | PyVal.int n => some n
  | PyVal.bool b => some (if b then 1 else 0)
  | _ => none

/-- View a value as a real number (`int`, `bool` or `float`). -/
def toRatOpt : PyVal → Option ℚ
  | PyVal.int n => some (n : ℚ)
  | PyVal.bool b => some (if b then 1 else 0)
  | PyVal.float q => some q
  | _ => none

/-- `s * n` for a string and an integer (Python repetition; non-positive
counts give the empty string). -/
def strRepeat (s : String) (n : ℤ) : String :=
  if n ≤ 0 then "" else String.join (List.replicate n.toNat s)

/-- Apply a whitelisted binary operator to two integers
(Python semantics: `/` is true division producing a float, `//` and `%`
are floor-based, `**` with a negative exponent produces a float). -/
def intBinop (op : BOp) (x y : ℤ) : Except EvalErr PyVal :=
  match op with
  | BOp.add => Except.ok (PyVal.int (x + y))
  | BOp.sub => Except.ok (PyVal.int (x - y))
  | BOp.mul => Except.ok (PyVal.int (x * y))
  | BOp.div =>
    if y = 0 then Except.error EvalErr.zeroDiv
    else Except.ok (PyVal.float ((x : ℚ) / (y : ℚ)))
  | BOp.floordiv =>
    if y = 0 then Except.error EvalErr.zeroDiv
    else Except.ok (PyVal.int (Int.fdiv x y))
  | BOp.mod =>
    if y = 0 then Except.error EvalErr.zeroDiv
    else Except.ok (PyVal.int (Int.fmod x y))
  | BOp.pow =>
    if 0 ≤ y then Except.ok (PyVal.int (x ^ y.toNat))
    else if x = 0 then Except.error EvalErr.zeroDiv
    else Except.ok (PyVal.float ((x : ℚ) ^ y))

/-- Apply a whitelisted binary operator when at least one operand is a
float (Python promotes to float).  A non-integer exponent of a float
power would in general be irrational; its value is not modelled (the
claims never evaluate one). -/
def floatBinop (op : BOp) (x y : ℚ) : Except EvalErr PyVal :=
  match op with
  | BOp.add => Except.ok (PyVal.float (x + y))
  | BOp.sub => Except.ok (PyVal.float (x - y))
  | BOp.mul => Except.ok (PyVal.float (x * y))
  | BOp.div =>
    if y = 0 then Except.error EvalErr.zeroDiv
    else Except.ok (PyVal.float (x / y))
  | BOp.floordiv =>
    if y = 0 then Except.error EvalErr.zeroDiv
    else Except.ok (PyVal.float (⌊x / y⌋ : ℤ))
  | BOp.mod =>
    if y = 0 then Except.error EvalErr.zeroDiv
    else Except.ok (PyVal.float (x - y * (⌊x / y⌋ : ℤ)))
  | BOp.pow =>
    if y.den = 1 then
      if x = 0 ∧ y.num < 0 then Except.error EvalErr.zeroDiv
      else Except.ok (PyVal.float (x ^ y.num))
    else Except.error (EvalErr.other "non-integer float power (value not modelled)")

/-- Apply a whitelisted binary operator (`SAFE_OPERATORS[op_type](left,
right)`).  String concatenation and repetition follow Python; any other
operand mix is a `TypeError`-style failure whose message is abbreviated.
(Printf-style `str % x` formatting is not modelled.) -/
def applyBOp (op : BOp) (a b : PyVal) : Except EvalErr PyVal :=
  match a, b with
  | PyVal.str s1, PyVal.str s2 =>
    if op = BOp.add then Except.ok (PyVal.str (s1 ++ s2))
    else Except.error (EvalErr.other "unsupported operand type(s)")
  | PyVal.str s1, v =>
    if op = BOp.mul then
      match toIntOpt v with
      | some n => Except.ok (PyVal.str (strRepeat s1 n))
      | none => Except.error (EvalErr.other "unsupported operand type(s)")
    else Except.error (EvalErr.other "unsupported operand type(s)")
  | v, PyVal.str s2 =>
    if op = BOp.mul then
      match toIntOpt v with
      | some n => Except.ok (PyVal.str (strRepeat s2 n))
      | none => Except.error (EvalErr.other "unsupported operand type(s)")
    else Except.error (EvalErr.other "unsupported operand type(s)")
  | _, _ =>
    match toIntOpt a, toIntOpt b with
    | some x, some y => intBinop op x y
    | _, _ =>
      match toRatOpt a, toRatOpt b with
      | some x, some y => floatBinop op x y
      | _, _ => Except.error (EvalErr.other "unsupported operand type(s)")

/-- Round half to even (Python's `round` on ties). -/
def roundHalfEven (q : ℚ) : ℤ :=
  let f := ⌊q⌋
  let r := q - (f : ℚ)
  if r < 1 / 2 then f
  else if 1 / 2 < r then f + 1
  else if f % 2 = 0 then f else f + 1

/-- `round(x, n)` on an exact rational. -/
def roundQ (q : ℚ) (n : ℤ) : ℚ :=
  let s : ℚ := (10 : ℚ) ^ n
  (roundHalfEven (q * s) : ℚ) / s

/-- Integer square root by Newton iteration (structural fuel; the guess
strictly decreases each step, so `n` steps always suffice). -/
def natSqrtIter : ℕ → ℕ → ℕ → ℕ
  | 0, _, g => g
  | fuel + 1, n, g =>
    let g2 := (g + n / g) / 2
    if g2 < g then natSqrtIter fuel n g2 else g

/-- Floor integer square root. -/
def intSqrt (n : ℕ) : ℕ := if n ≤ 1 then n else natSqrtIter n n n

/-- Rational square root: exact when the radicand is a square of a
rational, and a floor-based approximation otherwise (the IEEE
approximation `math.sqrt` would return is not representable; the claims
only evaluate exact cases). -/
def ratSqrt (q : ℚ) : ℚ :=
  (intSqrt q.num.toNat : ℚ) / (intSqrt q.den : ℚ)

/-- Apply a whitelisted callable to evaluated arguments.  The
transcendental functions (`log`, `log2`, `log10`, `sin`, `cos`, `tan`)
return irrational IEEE values; the model keeps their domain checks (which
produce real `ValueError`s) and abstracts the returned magnitude as `0`.
Arity and argument-type failures are `TypeError`-style texts. -/
def applyFun (f : String) (args : List PyVal) : Except EvalErr PyVal :=
  if f = "sqrt" then
    match args with
    | [v] =>
      match toRatOpt v with
      | some q =>
        if q < 0 then Except.error (EvalErr.other "math domain error")
        else Except.ok (PyVal.float (ratSqrt q))
      | none => Except.error (EvalErr.other "must be a real number")
    | _ => Except.error (EvalErr.other "wrong number of arguments")
  else if f = "abs" then
    match args with
    | [PyVal.int n] => Except.ok (PyVal.int |n|)
    | [PyVal.float q] => Except.ok (PyVal.float |q|)
    | [PyVal.bool b] => Except.ok (PyVal.int (if b then 1 else 0))
    | _ => Except.error (EvalErr.other "bad operand type for abs()")
  else if f = "ceil" then
    match args with
    | [v] =>
      match toRatOpt v with
      | some q => Except.ok (PyVal.int ⌈q⌉)
      | none => Except.error (EvalErr.other "must be a real number")
    | _ => Except.error (EvalErr.other "wrong number of arguments")
  else if f = "floor" then
    match args with
    | [v] =>
      match toRatOpt v with
      | some q => Except.ok (PyVal.int ⌊q⌋)
      | none => Except.error (EvalErr.other "must be a real number")
    | _ => Except.error (EvalErr.other "wrong number of arguments")
  else if f = "log" ∨ f = "log2" ∨ f = "log10" then
    match args with
    | [v] =>
      match toRatOpt v with
      | some q =>
        if q ≤ 0 then Except.error (EvalErr.other "math domain error")
        -- Irrational IEEE value abstracted.
        else Except.ok (PyVal.float 0)
      | none => Except.error (EvalErr.other "must be a real number")
    | [v, b] =>
      match toRatOpt v, toRatOpt b with
      | some q, some _ =>
        if f = "log" then
          if q ≤ 0 then Except.error (EvalErr.other "math domain error")
          else Except.ok (PyVal.float 0)
        else Except.error (EvalErr.other "wrong number of arguments")
      | _, _ => Except.error (EvalErr.other "must be a real number")
    | _ => Except.error (EvalErr.other "wrong number of arguments")
  else if f = "sin" ∨ f = "cos" ∨ f = "tan" then
    match args with
    | [v] =>
      match toRatOpt v with
      -- Irrational IEEE value abstracted.
      | some _ => Except.ok (PyVal.float 0)
      | none => Except.error (EvalErr.other "must be a real number")
    | _ => Except.error (EvalErr.other "wrong number of arguments")
  else if f = "round" then
    match args with
    | [PyVal.int n] => Except.ok (PyVal.int n)
    | [PyVal.bool b] => Except.ok (PyVal.int (if b then 1 else 0))
    | [PyVal.float q] => Except.ok (PyVal.int (roundHalfEven q))
    | [PyVal.int n, p] =>
      match toIntOpt p with
      | some k => Except.ok (PyVal.int (roundQ (n : ℚ) k).num)
      | none => Except.error (EvalErr.other "ndigits must be an integer")
    | [PyVal.float q, p] =>
      match toIntOpt p with
      | some k => Except.ok (PyVal.float (roundQ q k))
      | none => Except.error (EvalErr.other "ndigits must be an integer")
    | _ => Except.error (EvalErr.other "wrong number of arguments")
  else if f = "pow" then
    match args with
    | [a, b] => applyBOp BOp.pow a b
    | [a, b, c] =>
      match toIntOpt a, toIntOpt b, toIntOpt c with
      | some x, some y, some m =>
        if m = 0 then Except.error (EvalErr.other "pow() 3rd argument cannot be 0")
        else if 0 ≤ y then Except.ok (PyVal.int (Int.fmod (x ^ y.toNat) m))
        -- Modular inverses for negative exponents are not modelled.
        else Except.error (EvalErr.other "negative exponent with modulus not modelled")
      | _, _, _ => Except.error (EvalErr.other "pow() arguments must be integers")
    | _ => Except.error (EvalErr.other "wrong number of arguments")
  else Except.error (EvalErr.other "wrong number of arguments")

mutual

/-- `_safe_eval`: recursively evaluate an AST node using only the safe
operators and functions, in the source's order of checks. -/
def safeEval : PyExpr → Except EvalErr PyVal
  | PyExpr.const v => Except.ok v
  | PyExpr.name id =>
    if constNames.contains id then Except.ok (PyVal.float (constVal id))
    else if safeNames.contains id then
      Except.error (EvalErr.other
        ("'" ++ id ++ "' is a function, not a constant. Call it with ()."))
    else Except.error (EvalErr.other ("Unknown name: '" ++ id ++ "'"))
  | PyExpr.call f args =>
    if safeNames.contains f then
      if constNames.contains f then
        Except.error (EvalErr.other ("'" ++ f ++ "' is not callable."))
      else
        match safeEvalArgs args with
        | Except.error e => Except.error e
        | Except.ok vs => applyFun f vs
    -- The real text embeds `ast.dump(node.func)`; abbreviated here.
    else Except.error (EvalErr.other "Function not allowed")
  | PyExpr.binop op l r =>
    match safeEval l with
    | Except.error e => Except.error e
    | Except.ok a =>
      match safeEval r with
      | Except.error e => Except.error e
      | Except.ok b => applyBOp op a b
  | PyExpr.unary op e =>
    match op with
    -- `ast.UAdd` is not in `SAFE_OPERATORS`: rejected before the operand
    -- is evaluated; the real text embeds the class repr.
    | UOp.uadd => Except.error (EvalErr.other "Unsupported unary operator")
    | UOp.usub =>
      match safeEval e with
      | Except.error err => Except.error err
      | Except.ok v =>
        match v with
        | PyVal.float q => Except.ok (PyVal.float (-q))
        | _ =>
          match toIntOpt v with
          | some n => Except.ok (PyVal.int (-n))
          | none => Except.error (EvalErr.other "bad operand type for unary -")

/-- Evaluate call arguments left to right, stopping at the first
failure. -/
def safeEvalArgs : List PyExpr → Except EvalErr (List PyVal)
  | [] => Except.ok []
  | a :: rest =>
    match safeEval a with
    | Except.error e => Except.error e
    | Except.ok v =>
      match safeEvalArgs rest with
      | Except.error e => Except.error e
      | Except.ok vs => Except.ok (v :: vs)

end

/-! ### Result formatting and the tool entry point -/

/-- Decimal rendering of a float value whose rational is not an integer.
Every value an IEEE double can hold has a finite decimal expansion, which
is printed exactly; Python prints the shortest round-tripping decimal of
the double, which agrees on the short values the tool meets.  A
non-dyadic rational (possible only for abstracted values) falls back to
the raw rational rendering. -/
def decRepr (q : ℚ) : String :=
  match (List.range 401).find? (fun k => (10 : ℕ) ^ k % q.den = 0) with
  | some k =>
    let digits := q.num.natAbs * ((10 : ℕ) ^ k / q.den)
    let ipart := digits / 10 ^ k
    let fpart := digits % 10 ^ k
    let fs := toString fpart
    let fsPadded := String.mk (List.replicate (k - fs.length) '0') ++ fs
    let fsTrimmed := String.mk (fsPadded.data.reverse.dropWhile (fun c => c = '0')).reverse
    (if q.num < 0 then "-" else "") ++ toString ipart ++ "." ++ fsTrimmed
  | none => toString q

/-- `str(result)` preceded by the integral-float check of `calculator`:
a float with integral value prints without a fractional part. -/
def formatResult (v : PyVal) : String :=
  match v with
  | PyVal.float q => if q.den = 1 then toString q.num else decRepr q
  | PyVal.int n => toString n
  | PyVal.str s => s
  | PyVal.bool b => if b then "True" else "False"
  | PyVal.pynone => "None"

/-- The `calculator` tool: parse, evaluate, format, catching
`ZeroDivisionError` with its fixed text and every other failure with the
generic `Error evaluating '<expression>': <message>` text. -/
def calculator (expression : String) : String :=
  match parsePyExpr expression with
  | Except.error m => "Error evaluating '" ++ expression ++ "': " ++ m
  | Except.ok ast =>
    match safeEval ast with
    | Except.error EvalErr.zeroDiv => "Error: Division by zero"
    | Except.error (EvalErr.other m) => "Error evaluating '" ++ expression ++ "': " ++ m
    | Except.ok v => expression ++ " = " ++ formatResult v

/-! ## Tool registry and the fallback executor (`_execute_tool_call`)

`get_weather` and `search_web` wrap network services; they are external
collaborators and enter the model as oracle functions from argument
mappings to result texts.  `calculator` is the pure tool embedded
above. -/

/-- The behaviour of the two network tools, quantified over. -/
structure ToolEnv where
  weather : List (String × JVal) → String
  search : List (String × JVal) → String

/-- A fixed environment used for concrete evaluations. -/
def defaultEnv : ToolEnv :=
  { weather := fun _ => "", search := fun _ => "" }

mutual

/-- Python `repr` of a parsed JSON value (string quoting details beyond
the plain single-quote form are abstracted; used only for the rendering
of a non-string `name` in the unknown-tool text). -/
def reprJVal : JVal → String
  | JVal.null => "None"
  | JVal.bool b => if b then "True" else "False"
  | JVal.num q => if q.den = 1 then toString q.num else decRepr q
  | JVal.str s => "'" ++ s ++ "'"
  | JVal.arr l => "[" ++ String.intercalate ", " (reprJValList l) ++ "]"
  | JVal.obj kvs => "\x7b" ++ String.intercalate ", " (reprJValPairs kvs) ++ "\x7d"

/-- `repr` of the elements of a list. -/
def reprJValList : List JVal → List String
  | [] => []
  | v :: r => reprJVal v :: reprJValList r

/-- `repr` of the members of a mapping. -/
def reprJValPairs : List (String × JVal) → List String
  | [] => []
  | (k, v) :: r => ("'" ++ k ++ "': " ++ reprJVal v) :: reprJValPairs r

end

/-- Python `str` of a parsed JSON value (a string renders without
quotes). -/
def pyStrJVal : JVal → String
  | JVal.str s => s
  | v => reprJVal v

/-- Invoke the calculator tool through its argument mapping, as
`tool.invoke(parameters)` does.  A missing or non-string `expression`
makes the langchain argument validation raise, which
`_execute_tool_call` catches; the exception text is abstracted. -/
def invokeCalculatorTool (pkvs : List (String × JVal)) : String :=
  match jLookup pkvs "expression" with
  | some (JVal.str e) => calculator e
  | _ => "(Tool execution error: invalid arguments)"

/-- Exceptions that escape `format_response`: the membership test
`name not in tool_map` in `_execute_tool_call` hashes the name, and an
unhashable value (a `list` or a `dict` decoded from a JSON array or
object) raises a `TypeError` that neither the inner `except Exception`
(which only guards `invoke`) nor the outer
`except (json.JSONDecodeError, ValueError)` catches. -/
inductive PyExn where
  | typeError (msg : String) : PyExn

/-- `_execute_tool_call(name, parameters)` for a string name: look the
name up in the tool map built from `TOOLS`; unknown names give the fixed
unknown-tool text without executing anything. -/
def execStrTool (env : ToolEnv) (n : String) (pkvs : List (String × JVal)) : String :=
  if n = "calculator" then invokeCalculatorTool pkvs
  else if n = "get_weather" then env.weather pkvs
  else if n = "search_web" then env.search pkvs
  else "(Unknown tool: " ++ n ++ ")"

/-- `_execute_tool_call(name, parameters)` for an arbitrary leaked name
value.  A string dispatches through the tool map; a number, boolean or
`None` is hashable, fails the membership test and yields the
unknown-tool text; a JSON array or object decodes to an unhashable
`list`/`dict`, so the membership test itself raises an uncaught
`TypeError` (no text is ever returned on that branch). -/
def execToolCall (env : ToolEnv) (nameV : JVal) (pkvs : List (String × JVal)) :
    Except PyExn String :=
  match nameV with
  | JVal.str n => Except.ok (execStrTool env n pkvs)
  | JVal.arr _ => Except.error (PyExn.typeError "unhashable type: 'list'")
  | JVal.obj _ => Except.error (PyExn.typeError "unhashable type: 'dict'")
  | v => Except.ok ("(Unknown tool: " ++ pyStrJVal v ++ ")")

/-! ## The response sanitizer (`format_response`) -/

/-- The JSON candidate of step 1: both fence substitutions applied to the
stripped text, then stripped again. -/
def jsonCandidate (text : String) : String :=
  pyStrip (String.mk (subFenceClose (subFenceOpen text.data)))

/-- `parsed["name"]`. -/
def resolveName (kvs : List (String × JVal)) : JVal :=
  (jLookup kvs "name").getD JVal.null

/-- `parsed.get("parameters", parsed.get("arguments", parsed.get("input",
{})))`: the value of the first present key, an empty mapping when none
is. -/
def resolveParams (kvs : List (String × JVal)) : JVal :=
  if jMember kvs "parameters" then (jLookup kvs "parameters").getD JVal.null
  else if jMember kvs "arguments" then (jLookup kvs "arguments").getD JVal.null
  else if jMember kvs "input" then (jLookup kvs "input").getD JVal.null
  else JVal.obj []

/-- Stages 2–3 plus the following strip: both fence substitutions, inline
code unwrapping, tag removal, `strip()`. -/
def pipelineText (text : String) : String :=
  pyStrip (String.mk (subTags (subInlineCode (subFenceClose (subFenceOpen text.data)))))

/-- Stages 2–6 of the pipeline (everything after the leaked-tool-call
stage): fence/tag stripping, final-answer extraction (which
short-circuits), thought-block removal, residual header-line filtering,
and the final empty-text fallback. -/
def pipelineRest (text : String) : String :=
  let t5 := pipelineText text
  match findFA t5.data with
  | some r => String.mk (faPost r)
  | none =>
    let t6 := pyStrip (String.mk (stripThoughtBlock t5.data))
    let lines := (pySplitlines t6).filter (fun l => ¬ lineIsThought l)
    let res := pyStrip (String.intercalate "\n" lines)
    if res = "" then "(No response)" else res

/-- Does the input take the leaked-tool-call recovery path?  (The parsed
candidate is a mapping with a `name` key and mapping-valued resolved
arguments.) -/
def takesLeakedPath (raw : String) : Bool :=
  match parseJson (jsonCandidate (pyStrip raw)) with
  | some (JVal.obj kvs) =>
    if jMember kvs "name" then
      match resolveParams kvs with
      | JVal.obj _ => true
      | _ => false
    else false
  | _ => false

/-- `format_response(raw)`: empty input short-circuits; the stripped text
then flows through leaked-tool-call recovery and, failing that, the rest
of the pipeline.  (A parse failure and a parsed value that is not a
mapping with a `name` key and mapping arguments fall through
identically.)  The result is `Except.error` exactly when the real
function lets the membership-test `TypeError` escape (unhashable leaked
name); every other branch returns a text. -/
def formatResponseE (env : ToolEnv) (raw : String) : Except PyExn String :=
  if raw = "" then Except.ok "(No response)"
  else
    let text := pyStrip raw
    match parseJson (jsonCandidate text) with
    | some (JVal.obj kvs) =>
      if jMember kvs "name" then
        match resolveParams kvs with
        | JVal.obj pkvs => execToolCall env (resolveName kvs) pkvs
        | _ => Except.ok (pipelineRest text)
      else Except.ok (pipelineRest text)
    | _ => Except.ok (pipelineRest text)

/-- The text of a normally-returning `format_response` call.  On the one
branch where the real function raises (`formatResponseE` returns
`Except.error`) the projection yields a fixed marker that models no
program output; no theorem below evaluates the projection there — each
either fixes an input whose run returns normally, or carries hypotheses
that rule the raising branch out. -/
def formatResponse (env : ToolEnv) (raw : String) : String :=
  match formatResponseE env raw with
  | Except.ok s => s
  | Except.error _ => "(uncaught TypeError)"

/-! ## The agent loop (`agent_node`, `should_continue`, tool node)

The language model is an oracle from the visible message list to the next
assistant message (content text plus requested tool calls); the loop is
deterministic given the oracle.  LangGraph's `add_messages` reducer
appends the messages a node returns to the state's list. -/

/-- A structured tool request attached to an assistant message. -/
structure ToolCall where
  name : String
  args : List (String × JVal)

/-- Messages (`SystemMessage`, `HumanMessage`, `AIMessage`,
`ToolMessage`). -/
inductive Msg where
  | system (content : String) : Msg
  | human (content : String) : Msg
  | ai (content : String) (toolCalls : List ToolCall) : Msg
  | tool (content : String) (toolName : String) : Msg

/-- `.content`. -/
def Msg.content : Msg → String
  | Msg.system c => c
  | Msg.human c => c
  | Msg.ai c _ => c
  | Msg.tool c _ => c

/-- `.tool_calls` where the attribute exists; only assistant messages
carry tool calls (`hasattr` is false elsewhere). -/
def Msg.toolCalls : Msg → List ToolCall
  | Msg.ai _ tc => tc
  | _ => []

/-- `isinstance(m, SystemMessage)`. -/
def isSystem : Msg → Bool
  | Msg.system _ => true
  | _ => false

/-- `isinstance(m, AIMessage)`. -/
def isAI : Msg → Bool
  | Msg.ai _ _ => true
  | _ => false

/-- The fixed `SYSTEM_PROMPT` content. -/
def systemPromptText : String :=
  "You are a helpful, accurate AI assistant with access to tools.\n\n" ++
  "## Available Tools\n" ++
  "- `calculator` — evaluate math expressions (e.g. '2 + 2', 'sqrt(144)')\n" ++
  "- `get_weather` — get current weather for a city\n" ++
  "- `search_web` — search for recent news, facts, or any web information\n\n" ++
  "## How to respond\n" ++
  "1. Carefully read the user's question.\n" ++
  "2. If a tool would help, call it ONCE. Do NOT call multiple tools for the same question.\n" ++
  "3. After receiving tool output, use it to write a clear, direct answer.\n" ++
  "4. If no tool is needed, answer directly from your knowledge.\n\n" ++
  "## Response format\n" ++
  "Always end with a **Final Answer** section that directly addresses the user's question.\n" ++
  "Keep answers concise and relevant — avoid unnecessary disclaimers.\n\n" ++
  "## Rules\n" ++
  "- Do not call a tool if you already have enough information.\n" ++
  "- Do not speculate about tool results before calling them.\n" ++
  "- If a tool returns an error, acknowledge it and answer as best you can.\n" ++
  "- Never fabricate facts or data.\n" ++
  "- NEVER wrap your response in HTML tags, div tags, code blocks, or markdown fences.\n" ++
  "- Always respond in plain text only."

/-- The process-wide `SYSTEM_PROMPT` message. -/
def systemPromptMsg : Msg := Msg.system systemPromptText

/-- The graph state: the message channel (reduced by `add_messages`) and
the `iteration_count` channel (last value wins). -/
structure AgentState where
  messages : List Msg
  iterationCount : ℕ

/-- The model backend as a deterministic oracle over the visible message
list. -/
def Oracle : Type := List Msg → String × List ToolCall

/-- The hard cap `MAX_ITERATIONS`. -/
def MAX_ITERATIONS : ℕ := 5

/-- The message list `agent_node` passes to the model: the system prompt
is prepended to a local copy when no system message is present.  The
prepended copy is not written back to the state. -/
def visibleMessages (s : AgentState) : List Msg :=
  if s.messages.any isSystem then s.messages else systemPromptMsg :: s.messages

/-- `agent_node`: invoke the model on the visible messages; the returned
delta appends one assistant message and overwrites `iteration_count` with
its successor. -/
def agentNode (o : Oracle) (s : AgentState) : AgentState :=
  let resp := o (visibleMessages s)
  { messages := s.messages ++ [Msg.ai resp.1 resp.2],
    iterationCount := s.iterationCount + 1 }

/-- Router outcomes (`"tools"` / `"__end__"`). -/
inductive Route where
  | tools : Route
  | stop : Route
deriving DecidableEq

/-- `should_continue`: hard iteration stop first, then the tool-call
check on the last message.  (On an empty transcript the source would
fault on `messages[-1]`; that state is unreachable because the router
only runs after `agent_node` appended a message.) -/
def shouldContinue (s : AgentState) : Route :=
  if MAX_ITERATIONS ≤ s.iterationCount then Route.stop
  else
    match s.messages.getLast? with
    | some m => if m.toolCalls.isEmpty then Route.stop else Route.tools
    | none => Route.stop

/-- Dispatch one named tool for the tool node.  The calculator is the
embedded pure tool; the network tools answer through the environment;
an unknown name produces LangGraph's error-text tool message instead of
failing the loop. -/
def invokeNamedTool (env : ToolEnv) (toolName : String) (args : List (String × JVal)) : String :=
  if toolName = "calculator" then invokeCalculatorTool args
  else if toolName = "get_weather" then env.weather args
  else if toolName = "search_web" then env.search args
  else "Error: " ++ toolName ++ " is not a valid tool, try one of [calculator, get_weather, search_web]."

/-- `ToolNode(TOOLS)`: execute every tool call of the last message in
order and append one tool message per call; `iteration_count` is
untouched. -/
def toolNode (env : ToolEnv) (s : AgentState) : AgentState :=
  let tcs := ((s.messages.getLast?).map Msg.toolCalls).getD []
  { messages := s.messages ++ tcs.map (fun tc => Msg.tool (invokeNamedTool env tc.name tc.args) tc.name),
    iterationCount := s.iterationCount }

/-- The compiled graph loop: enter at the agent node, route, run tools
and return to the agent while the router says `tools`.  The fuel bounds
the number of agent invocations; `MAX_ITERATIONS` of fuel is enough from
the initial state because each invocation increments the counter and the
router stops at the cap (the fuel-exhaustion branch is unreachable, see
`shouldContinue_runAgentLoop`). -/
def runLoopFuel (o : Oracle) (env : ToolEnv) : ℕ → AgentState → AgentState
  | 0, s => s
  | fuel + 1, s =>
    let s' := agentNode o s
    match shouldContinue s' with
    | Route.tools => runLoopFuel o env fuel (toolNode env s')
    | Route.stop => s'

/-- `app.invoke({"messages": [HumanMessage(user_input)],
"iteration_count": 0})`. -/
def runAgentLoop (o : Oracle) (env : ToolEnv) (userInput : String) : AgentState :=
  runLoopFuel o env MAX_ITERATIONS { messages := [Msg.human userInput], iterationCount := 0 }

/-- The content of the final state's last message (`last_msg.content if
last_msg.content else ""` collapses to the content itself). -/
def lastRaw (msgs : List Msg) : String :=
  match msgs.getLast? with
  | some m => m.content
  | none => ""

/-- The safety net of `run_agent`: when the last message's stripped
content is empty, walk the whole message list backward and use the first
message with truthy content and no `tool_calls`; when none exists the
original (empty or whitespace) content stands. -/
def extractRawAnswer (msgs : List Msg) : String :=
  let raw0 := lastRaw msgs
  if pyStrip raw0 = "" then
    match msgs.reverse.find? (fun m => !m.content.isEmpty && m.toolCalls.isEmpty) with
    | some m => m.content
    | none => raw0
  else raw0

/-- `run_agent(user_input)`: run the loop, extract the raw answer,
sanitize. -/
def runAgent (o : Oracle) (env : ToolEnv) (userInput : String) : String :=
  formatResponse env (extractRawAnswer (runAgentLoop o env userInput).messages)

/-- Modelled from the spec: the backward walk as the specification words
it — "the first prior message with non-empty content that is not itself a
tool-call-only assistant message" (prior: the last message itself is
excluded).  Used to compare the source's walk against the
specification. -/
def specWalkRaw (msgs : List Msg) : Option String :=
  (msgs.dropLast.reverse.find?
    (fun m => !m.content.isEmpty &&
      !(isAI m && m.content.isEmpty && !m.toolCalls.isEmpty))).map Msg.content

/-- The amended description of the walk: the first message, scanning
backward over the whole list, with non-empty content and no tool
requests at all. -/
def amendedWalkRaw (msgs : List Msg) : Option String :=
  (msgs.reverse.find? (fun m => !m.content.isEmpty && m.toolCalls.isEmpty)).map Msg.content

/-- Count of system messages. -/
def countSystem (msgs : List Msg) : ℕ := msgs.countP isSystem

/-- Count of assistant messages (equals the number of completed model
invocations in a run). -/
def countAI (msgs : List Msg) : ℕ := msgs.countP isAI

mutual

/-- Does the expression use an identifier or call target outside the
`SAFE_FUNCTIONS` whitelist? -/
def exprHasBadName : PyExpr → Bool
  | PyExpr.const _ => false
  | PyExpr.name id => !safeNames.contains id
  | PyExpr.call f args => !safeNames.contains f || argsHaveBadName args
  | PyExpr.binop _ l r => exprHasBadName l || exprHasBadName r
  | PyExpr.unary _ e => exprHasBadName e

/-- Any argument using a non-whitelisted name. -/
def argsHaveBadName : List PyExpr → Bool
  | [] => false
  | a :: r => exprHasBadName a || argsHaveBadName r

end

/-! # Theorems -/

/-! ## Shared lemmas about the sanitizer -/

/-- Whitespace-only (or empty) input always ends in the `"(No response)"`
fallback: the stripped text is empty, the JSON stage cannot parse it, no
final-answer marker matches, and the line filter leaves nothing. -/
theorem formatResponseE_of_strip_empty (env : ToolEnv) (raw : String)
    (h : pyStrip raw = "") :
    formatResponseE env raw = Except.ok "(No response)" := by
  by_cases hr : raw = ""
  · subst hr; rfl
  · simp only [formatResponseE, if_neg hr, h]
    rw [show parseJson (jsonCandidate "") = none by rfl]
    rfl

/-- The text projection of the same fact. -/
theorem formatResponse_of_strip_empty (env : ToolEnv) (raw : String)
    (h : pyStrip raw = "") : formatResponse env raw = "(No response)" := by
  simp only [formatResponse, formatResponseE_of_strip_empty env raw h]

/-! ## Shared lemmas about the agent loop -/

/-- `agent_node` increments the iteration counter by exactly one. -/
theorem agentNode_iterationCount (o : Oracle) (s : AgentState) :
    (agentNode o s).iterationCount = s.iterationCount + 1 := rfl

/-- The tool node leaves the iteration counter untouched. -/
theorem toolNode_iterationCount (env : ToolEnv) (s : AgentState) :
    (toolNode env s).iterationCount = s.iterationCount := rfl

/-- At or above the cap the router stops, regardless of the last
message. -/
theorem shouldContinue_of_cap (s : AgentState)
    (h : MAX_ITERATIONS ≤ s.iterationCount) : shouldContinue s = Route.stop := by
  simp only [shouldContinue, if_pos h]

/-- `agent_node` adds exactly one assistant message. -/
theorem countAI_agentNode (o : Oracle) (s : AgentState) :
    countAI (agentNode o s).messages = countAI s.messages + 1 := by
  simp [agentNode, countAI, List.countP_append, List.countP_cons, isAI]

/-- The tool node adds no assistant message. -/
theorem countAI_toolNode (env : ToolEnv) (s : AgentState) :
    countAI (toolNode env s).messages = countAI s.messages := by
  simp only [toolNode, countAI, List.countP_append]
  have h : ∀ tcs : List ToolCall,
      (tcs.map (fun tc => Msg.tool (invokeNamedTool env tc.name tc.args) tc.name)).countP isAI = 0 := by
    intro tcs
    induction tcs with
    | nil => rfl
    | cons a r ih => simp [List.countP_cons, isAI, ih]
  simp [h]

/-- Neither node adds a system message. -/
theorem countSystem_agentNode (o : Oracle) (s : AgentState) :
    countSystem (agentNode o s).messages = countSystem s.messages := by
  simp [agentNode, countSystem, List.countP_append, List.countP_cons, isSystem]

/-- The tool node adds no system message. -/
theorem countSystem_toolNode (env : ToolEnv) (s : AgentState) :
    countSystem (toolNode env s).messages = countSystem s.messages := by
  simp only [toolNode, countSystem, List.countP_append]
  have h : ∀ tcs : List ToolCall,
      (tcs.map (fun tc => Msg.tool (invokeNamedTool env tc.name tc.args) tc.name)).countP isSystem = 0 := by
    intro tcs
    induction tcs with
    | nil => rfl
    | cons a r ih => simp [List.countP_cons, isSystem, ih]
  simp [h]

/-- The assistant-message count tracks the iteration counter through the
loop. -/
theorem runLoopFuel_countAI (o : Oracle) (env : ToolEnv) :
    ∀ (fuel : ℕ) (s : AgentState), countAI s.messages = s.iterationCount →
      countAI (runLoopFuel o env fuel s).messages = (runLoopFuel o env fuel s).iterationCount := by
  intro fuel
  induction fuel with
  | zero => intro s h; simpa [runLoopFuel] using h
  | succ fuel ih =>
    intro s h
    simp only [runLoopFuel]
    cases hr : shouldContinue (agentNode o s) with
    | tools =>
      apply ih
      rw [countAI_toolNode, toolNode_iterationCount, countAI_agentNode,
        agentNode_iterationCount, h]
    | stop =>
      rw [countAI_agentNode, agentNode_iterationCount, h]

/-- With fuel covering the distance to the cap, the loop only returns
states the router stops at. -/
theorem runLoopFuel_stop (o : Oracle) (env : ToolEnv) :
    ∀ (fuel : ℕ) (s : AgentState), MAX_ITERATIONS ≤ s.iterationCount + fuel →
      shouldContinue (runLoopFuel o env fuel s) = Route.stop := by
  intro fuel
  induction fuel with
  | zero =>
    intro s h
    simp only [runLoopFuel]
    exact shouldContinue_of_cap s (by omega)
  | succ fuel ih =>
    intro s h
    simp only [runLoopFuel]
    cases hr : shouldContinue (agentNode o s) with
    | tools =>
      apply ih
      rw [toolNode_iterationCount, agentNode_iterationCount]
      omega
    | stop => exact hr

/-- The loop never adds a system message. -/
theorem runLoopFuel_countSystem (o : Oracle) (env : ToolEnv) :
    ∀ (fuel : ℕ) (s : AgentState),
      countSystem (runLoopFuel o env fuel s).messages = countSystem s.messages := by
  intro fuel
  induction fuel with
  | zero => intro s; rfl
  | succ fuel ih =>
    intro s
    simp only [runLoopFuel]
    cases hr : shouldContinue (agentNode o s) with
    | tools => rw [ih, countSystem_toolNode, countSystem_agentNode]
    | stop => rw [countSystem_agentNode]

/-- A run that falls through to the line-filter stage (no leaked tool
call executed, no final-answer marker matched) never returns the empty
string. -/
theorem pipelineRest_ne_empty_of_no_fa (t : String)
    (hfa : findFA (pipelineText t).data = none) : ¬ pipelineRest t = "" := by
  intro h
  simp only [pipelineRest, hfa] at h
  split at h
  · exact absurd h (by decide)
  · exact absurd h (by assumption)

/-! ## C1 — iteration counting and the iteration cap -/

/-- C1: each model invocation (`agent_node`) increments `iteration_count`
by exactly one, so after `n` completed invocations the counter equals `n`
(in every run the assistant-message count equals the final counter); the
router returns `__end__` whenever the post-increment counter is at least
`MAX_ITERATIONS = 5`, regardless of pending tool requests, and every run
ends in a state the router stops at. -/
theorem c1_iteration_count_and_cap :
    (∀ (o : Oracle) (s : AgentState),
      (agentNode o s).iterationCount = s.iterationCount + 1) ∧
    (∀ s : AgentState, MAX_ITERATIONS ≤ s.iterationCount →
      shouldContinue s = Route.stop) ∧
    (∀ (o : Oracle) (env : ToolEnv) (u : String),
      countAI (runAgentLoop o env u).messages = (runAgentLoop o env u).iterationCount ∧
      shouldContinue (runAgentLoop o env u) = Route.stop) := by
  refine ⟨agentNode_iterationCount, shouldContinue_of_cap, fun o env u => ⟨?_, ?_⟩⟩
  · exact runLoopFuel_countAI o env MAX_ITERATIONS _ (by simp [countAI, isAI])
  · exact runLoopFuel_stop o env MAX_ITERATIONS _ (by omega)

/-- C1 witness: a state at the cap whose last assistant message still
requests a tool is routed to `__end__`. -/
theorem c1_iteration_count_and_cap_witness :
    shouldContinue
      { messages := [Msg.ai "" [{ name := "calculator", args := [] }]],
        iterationCount := 5 } = Route.stop :=
  c1_iteration_count_and_cap.2.1 _ (by decide)

/-! ## C5 — the system-prompt invariant -/

/-- C5 counterexample: after a one-iteration run the transcript threaded
through the loop contains no system message at all — the claimed
invariant "exactly one system-instruction message is present" is false
(the prepend in `agent_node` is local to the model call and its result is
never written back through `add_messages`). -/
theorem c5_counterexample :
    countSystem (runAgentLoop (fun _ => ("hello", [])) defaultEnv "hi").messages = 0 ∧
    ¬ countSystem (runAgentLoop (fun _ => ("hello", [])) defaultEnv "hi").messages = 1 :=
  ⟨by rfl, by decide⟩

/-- C5 amended: the threaded transcript never contains a system message;
on every iteration the agent node therefore finds none and prepends the
fixed prompt to the local list passed to the model, which consequently
holds exactly one system message, in first position. -/
theorem c5_amended :
    (∀ (o : Oracle) (env : ToolEnv) (u : String),
      countSystem (runAgentLoop o env u).messages = 0) ∧
    (∀ s : AgentState, countSystem s.messages = 0 →
      visibleMessages s = systemPromptMsg :: s.messages ∧
      countSystem (visibleMessages s) = 1) := by
  constructor
  · intro o env u
    rw [runAgentLoop, runLoopFuel_countSystem]
    simp [countSystem, isSystem]
  · intro s h
    have hany : s.messages.any isSystem = false := by
      rw [List.any_eq_false]
      rw [countSystem, List.countP_eq_zero] at h
      intro x hx
      exact h x hx
    refine ⟨by simp [visibleMessages, hany], ?_⟩
    simp only [visibleMessages, hany, Bool.false_eq_true, if_false]
    have hstep : countSystem (systemPromptMsg :: s.messages) = countSystem s.messages + 1 := by
      simp [countSystem, List.countP_cons, isSystem, systemPromptMsg]
    rw [hstep, h]

/-- C5 amended witness: a transcript without a system message gets
exactly one, in front, in the list shown to the model. -/
theorem c5_amended_witness :
    visibleMessages { messages := [Msg.human "x"], iterationCount := 0 } =
      systemPromptMsg :: [Msg.human "x"] ∧
    countSystem (visibleMessages { messages := [Msg.human "x"], iterationCount := 0 }) = 1 :=
  c5_amended.2 { messages := [Msg.human "x"], iterationCount := 0 } (by decide)

/-! ## C8 — empty and whitespace-only input -/

/-- C8: the sanitizer maps the empty string and a whitespace-only string
to the fixed `"(No response)"` literal. -/
theorem c8_empty_and_whitespace :
    ∀ env : ToolEnv, formatResponse env "" = "(No response)" ∧
      formatResponse env "   " = "(No response)" := by
  intro env
  exact ⟨rfl, formatResponse_of_strip_empty env "   " (by rfl)⟩

/-! ## C10 — non-numeric constants in the calculator -/

/-- C10: the calculator accepts any constant literal, not only numbers: a
string literal evaluates to itself and string repetition succeeds, both
producing the success format `<expression> = <value>`. -/
theorem c10_constant_literals :
    calculator "'abc'" = "'abc' = abc" ∧ calculator "'a' * 3" = "'a' * 3 = aaa" :=
  ⟨by rfl, by rfl⟩

/-! ## C2 — the final-answer marker takes the FIRST match, not the last -/

/-- C2: the two single-marker examples behave as documented, but on a
text with two markers `re.search` finds the first one and the code
returns everything after it — including the second marker — where the
claim (and the source's own comment) demand the text after the last
marker. -/
theorem c2_first_marker_behaviour :
    formatResponse defaultEnv "Final Answer: Paris" = "Paris" ∧
    formatResponse defaultEnv "**Final Answer:** 42" = "42" ∧
    formatResponse defaultEnv "Final Answer: A Final Answer: B" = "A Final Answer: B" ∧
    ¬ formatResponse defaultEnv "Final Answer: A Final Answer: B" = "B" :=
  ⟨by rfl, by rfl, by rfl, by decide⟩

/-! ## C4 — non-empty output -/

/-- C4 counterexample: the final-answer branch returns the raw slice
after the marker without the `"(No response)"` fallback, so input
consisting of a bare marker produces the empty string. -/
theorem c4_counterexample :
    formatResponse defaultEnv "Final Answer:" = "" ∧
    ¬ formatResponse defaultEnv "Final Answer:" = "(No response)" :=
  ⟨by rfl, by decide⟩

/-- When the leaked-tool-call branch is not taken, the sanitizer on
non-empty input returns normally with exactly the fall-through pipeline
applied to the stripped text. -/
theorem formatResponseE_eq_pipelineRest (env : ToolEnv) (raw : String)
    (hr : ¬ raw = "") (hlp : takesLeakedPath raw = false) :
    formatResponseE env raw = Except.ok (pipelineRest (pyStrip raw)) := by
  simp only [formatResponseE, if_neg hr]
  rw [takesLeakedPath] at hlp
  cases hp : parseJson (jsonCandidate (pyStrip raw)) with
  | none => rfl
  | some v =>
    rw [hp] at hlp
    cases v with
    | obj kvs =>
      by_cases hm : jMember kvs "name" = true
      · simp only [hm, if_true] at hlp ⊢
        cases hparams : resolveParams kvs with
        | obj pkvs => rw [hparams] at hlp; exact absurd hlp (by simp)
        | null => rfl
        | bool b => rfl
        | num q => rfl
        | str s => rfl
        | arr l => rfl
      · have hm2 : jMember kvs "name" = false := Bool.eq_false_iff.mpr hm
        simp only [hm2, Bool.false_eq_true, if_false]
    | null => rfl
    | bool b => rfl
    | num q => rfl
    | str s => rfl
    | arr l => rfl

/-- The text projection of the same fact. -/
theorem formatResponse_eq_pipelineRest (env : ToolEnv) (raw : String)
    (hr : ¬ raw = "") (hlp : takesLeakedPath raw = false) :
    formatResponse env raw = pipelineRest (pyStrip raw) := by
  simp only [formatResponse, formatResponseE_eq_pipelineRest env raw hr hlp]

/-- C4 amended: the sanitizer returns a non-empty string whenever the
leaked-tool-call branch is not taken and no final-answer marker matches
(only those two branches bypass the `"(No response)"` fallback; the
final-answer branch can return the empty string, see the
counterexample). -/
theorem c4_amended : ∀ (env : ToolEnv) (raw : String),
    takesLeakedPath raw = false →
    findFA (pipelineText (pyStrip raw)).data = none →
    ¬ formatResponse env raw = "" := by
  intro env raw hlp hfa
  by_cases hr : raw = ""
  · subst hr
    intro h
    rw [show formatResponse env "" = "(No response)" from rfl] at h
    exact absurd h (by decide)
  · rw [formatResponse_eq_pipelineRest env raw hr hlp]
    exact pipelineRest_ne_empty_of_no_fa _ hfa

/-- C4 amended witness: an ordinary text answer is returned non-empty. -/
theorem c4_amended_witness : ¬ formatResponse defaultEnv "hello world" = "" :=
  c4_amended defaultEnv "hello world" (by rfl) (by rfl)

/-! ## C6 — the backward walk of `run_agent` -/

/-- C6 counterexample: in a reachable final state whose last message is
empty, the specification's walk ("first prior message with non-empty
content that is not itself a tool-call-only assistant message") selects
the assistant message that carried both text and a tool request, but the
code skips every message having tool requests and answers from the
earlier human message instead. -/
theorem c6_counterexample :
    specWalkRaw (runAgentLoop
      (fun ms => if ms.any isAI then ("", [])
        else ("Let me think", [{ name := "get_weather", args := [("city", JVal.str "Paris")] }]))
      defaultEnv "hi").messages = some "Let me think" ∧
    extractRawAnswer (runAgentLoop
      (fun ms => if ms.any isAI then ("", [])
        else ("Let me think", [{ name := "get_weather", args := [("city", JVal.str "Paris")] }]))
      defaultEnv "hi").messages = "hi" ∧
    ¬ ("hi" : String) = "Let me think" :=
  ⟨by rfl, by rfl, by decide⟩

/-- C6 amended: when the last message's stripped content is empty the
code walks the whole list backward (the empty last message excludes
itself) and takes the first message with non-empty content and **no**
tool requests at all — a message carrying both text and tool requests is
skipped; when no such message exists, the empty raw answer reaches the
sanitizer, which returns `"(No response)"`. -/
theorem c6_amended : ∀ msgs : List Msg, pyStrip (lastRaw msgs) = "" →
    extractRawAnswer msgs = (amendedWalkRaw msgs).getD (lastRaw msgs) ∧
    (amendedWalkRaw msgs = none →
      ∀ env : ToolEnv, formatResponse env (extractRawAnswer msgs) = "(No response)") := by
  intro msgs h
  have hex : extractRawAnswer msgs = (amendedWalkRaw msgs).getD (lastRaw msgs) := by
    simp only [extractRawAnswer, amendedWalkRaw, h, if_true]
    cases hf : msgs.reverse.find? (fun m => !m.content.isEmpty && m.toolCalls.isEmpty) with
    | some m => simp [hf]
    | none => simp [hf]
  refine ⟨hex, fun hw env => ?_⟩
  rw [hex, hw, Option.getD_none]
  exact formatResponse_of_strip_empty env _ h

/-- C6 amended witness: with an empty-content final assistant message the
walk answers from the prior human message. -/
theorem c6_amended_witness :
    extractRawAnswer [Msg.human "hi", Msg.ai "" []] = "hi" := by
  have h := (c6_amended [Msg.human "hi", Msg.ai "" []] (by rfl)).1
  rw [h]
  rfl

/-! ## C3 — leaked-tool-call recovery -/

/-- C3 counterexample: the input consisting of the leaked mapping whose
`name` is a JSON array satisfies every condition of the claim (it parses
as a mapping with a `name` key, and the arguments default to the empty
mapping), yet no tool result — no sanitized output at all — is returned:
the membership test `name not in tool_map` hashes the unhashable list
and the resulting `TypeError` escapes `format_response`, whose handler
only catches `json.JSONDecodeError` and `ValueError`. -/
theorem c3_counterexample :
    parseJson (jsonCandidate (pyStrip "\x7b\"name\": []\x7d")) =
      some (JVal.obj [("name", JVal.arr [])]) ∧
    jMember [("name", JVal.arr [])] "name" = true ∧
    resolveParams [("name", JVal.arr [])] = JVal.obj [] ∧
    formatResponseE defaultEnv "\x7b\"name\": []\x7d" =
      Except.error (PyExn.typeError "unhashable type: 'list'") :=
  ⟨by rfl, by rfl, by rfl, by rfl⟩

/-- C3 amended: whenever the fence-stripped text parses as a JSON
mapping with a `name` key and the arguments resolved by the
`parameters` > `arguments` > `input` priority are themselves a mapping,
`format_response`'s outcome is exactly `_execute_tool_call`'s outcome and
every later pipeline stage is skipped: for a string name the call's text
result is returned verbatim (the named tool's output when it is
registered), while for an unhashable array or object name the membership
test's uncaught `TypeError` propagates and nothing is returned.  Parse
failures still fall through silently to the fence-stripping stage. -/
theorem c3_amended :
    ∀ (env : ToolEnv) (raw : String) (kvs pkvs : List (String × JVal)),
      ¬ raw = "" →
      parseJson (jsonCandidate (pyStrip raw)) = some (JVal.obj kvs) →
      jMember kvs "name" = true →
      resolveParams kvs = JVal.obj pkvs →
      formatResponseE env raw = execToolCall env (resolveName kvs) pkvs ∧
      (∀ n : String, resolveName kvs = JVal.str n →
        formatResponseE env raw = Except.ok (execStrTool env n pkvs)) ∧
      (∀ l : List JVal, resolveName kvs = JVal.arr l →
        formatResponseE env raw =
          Except.error (PyExn.typeError "unhashable type: 'list'")) := by
  intro env raw kvs pkvs hraw hp hm hparams
  have h0 : formatResponseE env raw = execToolCall env (resolveName kvs) pkvs := by
    simp only [formatResponseE, if_neg hraw]
    rw [hp]
    simp only [hm, if_true]
    rw [hparams]
  refine ⟨h0, ?_, ?_⟩
  · intro n hn
    rw [h0, hn]
    rfl
  · intro l hl
    rw [h0, hl]
    rfl

/-- C3 amended witness: the spec's fenced calculator example executes the
arithmetic tool and returns its result verbatim. -/
theorem c3_amended_witness :
    formatResponseE defaultEnv
      "```json\n\x7b\"name\": \"calculator\", \"arguments\": \x7b\"expression\": \"2+2\"\x7d\x7d\n```" =
      Except.ok "2+2 = 4" := by
  have h := (c3_amended defaultEnv
    "```json\n\x7b\"name\": \"calculator\", \"arguments\": \x7b\"expression\": \"2+2\"\x7d\x7d\n```"
    [("name", JVal.str "calculator"),
     ("arguments", JVal.obj [("expression", JVal.str "2+2")])]
    [("expression", JVal.str "2+2")]
    (by decide) (by rfl) (by rfl) (by rfl)).2.1 "calculator" (by rfl)
  rw [h]
  rfl

/-! ## C9 — unknown tool name in the recovery path -/

/-- C9: in the leaked-tool-call recovery path, a name outside the tool
registry makes the sanitizer return exactly `(Unknown tool: <name>)`,
with no tool executed (the output does not depend on the tool
environment) and no later pipeline stage applied to it. -/
theorem c9_unknown_tool :
    ∀ (env : ToolEnv) (raw : String) (kvs pkvs : List (String × JVal)) (n : String),
      ¬ raw = "" →
      parseJson (jsonCandidate (pyStrip raw)) = some (JVal.obj kvs) →
      jMember kvs "name" = true →
      resolveName kvs = JVal.str n →
      ¬ n = "calculator" → ¬ n = "get_weather" → ¬ n = "search_web" →
      resolveParams kvs = JVal.obj pkvs →
      formatResponse env raw = "(Unknown tool: " ++ n ++ ")" := by
  intro env raw kvs pkvs n hraw hp hm hn h1 h2 h3 hparams
  have hE : formatResponseE env raw = Except.ok ("(Unknown tool: " ++ n ++ ")") := by
    simp only [formatResponseE, if_neg hraw]
    rw [hp]
    simp only [hm, if_true]
    rw [hparams, hn]
    simp only [execToolCall, execStrTool, if_neg h1, if_neg h2, if_neg h3]
  simp only [formatResponse, hE]

/-- C9 witness: a leaked call naming the unregistered tool `foo` yields
the unknown-tool text. -/
theorem c9_unknown_tool_witness :
    formatResponse defaultEnv "\x7b\"name\": \"foo\"\x7d" = "(Unknown tool: foo)" := by
  have h := c9_unknown_tool defaultEnv "\x7b\"name\": \"foo\"\x7d"
    [("name", JVal.str "foo")] [] "foo"
    (by decide) (by rfl) (by rfl) (by rfl)
    (by decide) (by decide) (by decide) (by rfl)
  rw [h]
  rfl

/-! ## C7 — calculator totality and whitelisting -/

/-- A non-whitelisted identifier or call target anywhere in the
expression makes `_safe_eval` fail (the evaluation error it raises may
also be an earlier one from another subterm, but some error always
occurs). -/
theorem safeEval_badName :
    ∀ (n : ℕ) (e : PyExpr), sizeOf e ≤ n → exprHasBadName e = true →
      ∃ err, safeEval e = Except.error err := by
  intro n
  induction n with
  | zero =>
    intro e he
    exfalso
    cases e <;> simp_arith at he
  | succ n ih =>
    intro e he hbad
    match e with
    | PyExpr.const v => simp [exprHasBadName] at hbad
    | PyExpr.name id =>
      have hsP : id ∉ safeNames := by simpa [exprHasBadName] using hbad
      have hcP : id ∉ constNames := by
        intro hmem
        have hpe : id = "pi" ∨ id = "e" := by simpa [constNames] using hmem
        rcases hpe with rfl | rfl <;> exact hsP (by simp [safeNames])
      exact ⟨EvalErr.other ("Unknown name: '" ++ id ++ "'"),
        by simp [safeEval, hsP, hcP]⟩
    | PyExpr.binop op l r =>
      have hsl : sizeOf l ≤ n := by
        have := PyExpr.binop.sizeOf_spec op l r
        omega
      have hsr : sizeOf r ≤ n := by
        have := PyExpr.binop.sizeOf_spec op l r
        omega
      have hor : exprHasBadName l = true ∨ exprHasBadName r = true := by
        simpa [exprHasBadName, Bool.or_eq_true] using hbad
      rcases hor with hl | hrr
      · obtain ⟨err, hE⟩ := ih l hsl hl
        exact ⟨err, by simp [safeEval, hE]⟩
      · cases hL : safeEval l with
        | error e2 => exact ⟨e2, by simp [safeEval, hL]⟩
        | ok a =>
          obtain ⟨err, hE⟩ := ih r hsr hrr
          exact ⟨err, by simp [safeEval, hL, hE]⟩
    | PyExpr.unary op e1 =>
      have hse : sizeOf e1 ≤ n := by
        have := PyExpr.unary.sizeOf_spec op e1
        omega
      cases op with
      | uadd => exact ⟨EvalErr.other "Unsupported unary operator", by simp [safeEval]⟩
      | usub =>
        have hb1 : exprHasBadName e1 = true := by
          simpa [exprHasBadName] using hbad
        obtain ⟨err, hE⟩ := ih e1 hse hb1
        exact ⟨err, by simp [safeEval, hE]⟩
    | PyExpr.call f args =>
      by_cases hf : f ∈ safeNames
      · have hbargs : argsHaveBadName args = true := by
          have h0 : f ∉ safeNames ∨ argsHaveBadName args = true := by
            simpa [exprHasBadName] using hbad
          rcases h0 with h0 | h0
          · exact absurd hf h0
          · exact h0
        have hsize : ∀ x ∈ args, sizeOf x ≤ n := by
          intro x hx
          have h1 := List.sizeOf_lt_of_mem hx
          have h2 := PyExpr.call.sizeOf_spec f args
          omega
        have hargs : ∀ l : List PyExpr, (∀ x ∈ l, sizeOf x ≤ n) →
            argsHaveBadName l = true → ∃ err, safeEvalArgs l = Except.error err := by
          intro l
          induction l with
          | nil => intro _ hb; simp [argsHaveBadName] at hb
          | cons a r ihl =>
            intro hsz hb
            have hor : exprHasBadName a = true ∨ argsHaveBadName r = true := by
              simpa [argsHaveBadName, Bool.or_eq_true] using hb
            rcases hor with ha | hr2
            · obtain ⟨err, hE⟩ := ih a (hsz a (by simp)) ha
              exact ⟨err, by simp [safeEvalArgs, hE]⟩
            · cases hA : safeEval a with
              | error e2 => exact ⟨e2, by simp [safeEvalArgs, hA]⟩
              | ok v =>
                obtain ⟨err, hE⟩ := ihl (fun x hx => hsz x (by simp [hx])) hr2
                exact ⟨err, by simp [safeEvalArgs, hA, hE]⟩
        obtain ⟨err, hE⟩ := hargs args hsize hbargs
        by_cases hcf : f ∈ constNames
        · exact ⟨EvalErr.other ("'" ++ f ++ "' is not callable."),
            by simp [safeEval, hf, hcf]⟩
        · exact ⟨err, by simp [safeEval, hf, hcf, hE]⟩
      · exact ⟨EvalErr.other "Function not allowed", by simp [safeEval, hf]⟩

/-- C7: the calculator is total with the documented shapes —
`sqrt(144)` formats its integral float result without a fractional part,
`1/0` is caught as the fixed division-by-zero text, `import os` (not an
expression) yields the generic evaluation-error text; every input yields
either an error text or a success-formatted text, and any expression
using an identifier or call target outside the whitelist evaluates to an
error. -/
theorem c7_calculator_totality :
    calculator "sqrt(144)" = "sqrt(144) = 12" ∧
    calculator "1/0" = "Error: Division by zero" ∧
    (∃ t, calculator "import os" = "Error evaluating 'import os': " ++ t) ∧
    (∀ s : String, (∃ t, calculator s = "Error" ++ t) ∨
      (∃ t, calculator s = s ++ " = " ++ t)) ∧
    (∀ (s : String) (e : PyExpr), parsePyExpr s = Except.ok e →
      exprHasBadName e = true → ∃ t, calculator s = "Error" ++ t) := by
  have key : ∀ x : String,
      "Error evaluating '" ++ x = "Error" ++ (" evaluating '" ++ x) := by
    intro x
    rw [show ("Error evaluating '" : String) = "Error" ++ " evaluating '" by decide,
      String.append_assoc]
  have hsplit : ∀ (s m : String),
      "Error evaluating '" ++ s ++ "': " ++ m =
        "Error" ++ (" evaluating '" ++ s ++ "': " ++ m) := by
    intro s m
    simp only [String.append_assoc]
    exact key (s ++ ("': " ++ m))
  have herr : ∀ (s : String) (e : PyExpr), parsePyExpr s = Except.ok e →
      (∃ err, safeEval e = Except.error err) → ∃ t, calculator s = "Error" ++ t := by
    intro s e hp ⟨err, hE⟩
    cases err with
    | zeroDiv => exact ⟨": Division by zero", by simp [calculator, hp, hE]⟩
    | other m =>
      refine ⟨" evaluating '" ++ s ++ "': " ++ m, ?_⟩
      simp only [calculator, hp, hE]
      exact hsplit s m
  refine ⟨by with_unfolding_all rfl, by rfl, ⟨"invalid syntax", by rfl⟩, ?_, ?_⟩
  · intro s
    cases hp : parsePyExpr s with
    | error m =>
      left
      refine ⟨" evaluating '" ++ s ++ "': " ++ m, ?_⟩
      simp only [calculator, hp]
      exact hsplit s m
    | ok e =>
      cases hE : safeEval e with
      | error err =>
        left
        exact (herr s e hp ⟨err, hE⟩).imp (fun t ht => ht)
      | ok v =>
        right
        exact ⟨formatResult v, by simp [calculator, hp, hE]⟩
  · intro s e hp hbad
    exact herr s e hp (safeEval_badName (sizeOf e) e (Nat.le_refl _) hbad)

/-- C7 witness: an expression mentioning the non-whitelisted name `os`
produces an error text. -/
theorem c7_calculator_totality_witness :
    ∃ t, calculator "os + 1" = "Error" ++ t :=
  c7_calculator_totality.2.2.2.2 "os + 1"
    (PyExpr.binop BOp.add (PyExpr.name "os") (PyExpr.const (PyVal.int 1)))
    (by rfl) (by rfl)

end InfoAgent
